import Mathlib

/-
Verification of the futures-vs-spot gap dashboard (src/app.py).

The program is a sequential fetch-compute-render loop.  We embed the two
pieces the claims are about:

* `get_gold_spot_price` — the TTL-cached live quote fetcher (app.py lines
  18-51).  Its Python state is the pair of session variables
  `gold_spot_cache : Option float` and `gold_spot_timestamp : float`;
  we model it as `QuoteState` and thread it explicitly.  The network
  interaction is an input `FetchResult`: either a transport-level
  exception or a parsed JSON body whose three fields the code inspects
  (`code`, `message`, `price`).  A `price` field may be present but fail
  `float(...)` parsing, hence `Option (Option ℚ)`.  The result records
  the returned price, the new state, the Streamlit messages emitted
  (`st.error` / `st.warning`) and whether a network request was issued.

* the per-asset loop body (app.py lines 73-133), embedded as
  `processAsset`, and the whole cycle over the registry as `runCycle`.
  The two yfinance history calls can raise, modelled as
  `Except String PriceSeries`.

Prices and times are rationals (the Python floats carry no rounding
relevant to the claims, which are about branch selection and exact
subtraction).
-/

namespace FuturesDashboard

/-- The session-state cache of `get_gold_spot_price`:
`st.session_state.gold_spot_cache` and `st.session_state.gold_spot_timestamp`
(app.py lines 14-16). -/
structure QuoteState where
  gold_spot_cache : Option ℚ
  gold_spot_timestamp : ℚ
  deriving DecidableEq, Repr

/-- Initial session state (app.py lines 14-16): no cached value, timestamp 0. -/
def initQuoteState : QuoteState := ⟨none, 0⟩

/-- A Streamlit message surfaced to the user: `st.error` or `st.warning`. -/
inductive Emit where
  | error (msg : String)
  | warning (msg : String)
  deriving DecidableEq, Repr

/-- The JSON body returned by the quote provider, restricted to the three
fields the code reads: `code` (integer), `message` (string), `price`.
`price = some (some q)` means the field is present and `float(...)` parses
it to `q`; `price = some none` means present but unparseable (the
`float` call raises); `price = none` means absent. -/
structure ProviderResponse where
  code : Option Int
  message : Option String
  price : Option (Option ℚ)
  deriving DecidableEq, Repr

/-- Outcome of the HTTP GET + `.json()` step: either an exception
(timeout, connection error, malformed JSON) or a parsed body. -/
inductive FetchResult where
  | transportError (msg : String)
  | response (data : ProviderResponse)
  deriving DecidableEq, Repr

/-- Python substring containment, the `needle in hay` test. -/
def containsSubstr (needle hay : String) : Bool :=
  (hay.splitOn needle).length > 1

/-- Result of one `get_gold_spot_price()` call: the returned value
(`None` modelled as `none`), the session state afterwards, the messages
emitted, and whether a network request was issued. -/
structure QuoteResult where
  price : Option ℚ
  state : QuoteState
  emits : List Emit
  fetched : Bool
  deriving DecidableEq, Repr

/-- The `st.error` text on a 403 response (app.py line 35, emoji dropped). -/
def apiKeyErrorMsg : String :=
  "API Key Error! Please add your Twelve Data API key to Streamlit Secrets"

/-- The cache-hit test of app.py lines 23-24: a cached value exists and is
strictly less than 10 seconds old. -/
def quoteFresh (s : QuoteState) (current_time : ℚ) : Bool :=
  s.gold_spot_cache.isSome && decide (current_time - s.gold_spot_timestamp < 10)

/-- Embedding of `get_gold_spot_price` (app.py lines 18-51).  The wall
clock `time.time()` is the input `current_time`; the network outcome is
the input `fetch` (only consulted when the function actually fetches). -/
def get_gold_spot_price (s : QuoteState) (current_time : ℚ)
    (fetch : FetchResult) : QuoteResult :=
  if quoteFresh s current_time then
    ⟨s.gold_spot_cache, s, [], false⟩
  else
    match fetch with
    | .transportError e =>
        ⟨s.gold_spot_cache, s, [.error ("Gold API Error: " ++ e)], true⟩
    | .response data =>
        if data.code = some 403 then
          ⟨s.gold_spot_cache, s, [.error apiKeyErrorMsg], true⟩
        else
          match data.message with
          | some m =>
              if containsSubstr "run out of API credits" m then
                ⟨s.gold_spot_cache, s, [], true⟩
              else
                ⟨s.gold_spot_cache, s, [.warning ("API Message: " ++ m)], true⟩
          | none =>
              match data.price with
              | some (some price) => ⟨some price, ⟨some price, current_time⟩, [], true⟩
              | some none =>
                  ⟨s.gold_spot_cache, s,
                   [.error "Gold API Error: could not convert string to float"], true⟩
              | none => ⟨s.gold_spot_cache, s, [], true⟩

/-- One entry of the asset table (app.py lines 56-64). -/
structure AssetSpec where
  name : String
  futSymbol : String
  spotSymbol : String
  multiplier : ℚ
  deriving DecidableEq, Repr

/-- A `Close` series as used by the loop: (timestamp, close) pairs. -/
abbrev PriceSeries := List (Nat × ℚ)

/-- The asset table of app.py lines 56-64. -/
def registry : List AssetSpec :=
  [⟨"Gold", "GC=F", "API", 1⟩,
   ⟨"Silver", "SI=F", "SLV", 1⟩,
   ⟨"NAS100", "NQ=F", "^NDX", 1⟩,
   ⟨"US30", "YM=F", "^DJI", 1⟩,
   ⟨"SPX500", "ES=F", "^GSPC", 1⟩,
   ⟨"Oil (WTI)", "CL=F", "USO", 1⟩,
   ⟨"Gas (Natural)", "NG=F", "UNG", 1⟩]

/-- Per-asset external inputs for one cycle: the outcome of the futures
history fetch (app.py line 75), of the spot history fetch (line 105, only
reached for non-API assets), and the clock value and quote-provider
outcome seen if `get_gold_spot_price` is called for this asset. -/
structure AssetEnv where
  futuresFetch : Except String PriceSeries
  spotFetch : Except String PriceSeries
  quoteTime : ℚ
  quoteFetch : FetchResult

/-- The last close of a series, Python `series.iloc[-1]` (0 as a dummy
on the empty series, which every call site excludes). -/
def lastClose : PriceSeries → ℚ
  | [] => 0
  | [p] => p.2
  | _ :: q :: rest => lastClose (q :: rest)

/-- The four shapes of row the loop appends:
`valid` = numeric row (line 94 / 120), `apiError` = futures shown, spot
cell `API Error`, gap `N/A` (line 86), `unavailable` = all-`N/A` row
(lines 80, 109), `errored` = all-`ERROR` row (line 132). -/
inductive Row where
  | valid (name : String) (futuresNow spotNow gap : ℚ)
  | apiError (name : String) (futuresNow : ℚ)
  | unavailable (name : String)
  | errored (name : String)
  deriving DecidableEq, Repr

/-- The asset label of a row (first cell of the appended list). -/
def Row.label : Row → String
  | .valid n _ _ _ => n
  | .apiError n _ => n
  | .unavailable n => n
  | .errored n => n

/-- A chart appended to `charts`: title plus the two plotted series. -/
structure ChartSeries where
  title : String
  futures : PriceSeries
  spot : PriceSeries
  deriving DecidableEq, Repr

/-- Result of one iteration of the asset loop. -/
structure AssetResult where
  row : Row
  charts : List ChartSeries
  state : QuoteState
  emits : List Emit
  deriving Repr

/-- The warning emitted by the per-asset `except` handler (app.py line 133). -/
def assetErrorMsg (name e : String) : String :=
  "Error fetching data for " ++ name ++ ": " ++ e

/-- Embedding of one iteration of the asset loop (app.py lines 73-133).
An `Except.error` on either yfinance fetch is the exception caught at
line 130, producing the all-`ERROR` row. -/
def processAsset (a : AssetSpec) (env : AssetEnv) (qs : QuoteState) : AssetResult :=
  match env.futuresFetch with
  | .error e => ⟨.errored a.name, [], qs, [.warning (assetErrorMsg a.name e)]⟩
  | .ok futures =>
    if a.spotSymbol = "API" then
      if futures.isEmpty then ⟨.unavailable a.name, [], qs, []⟩
      else
        let q := get_gold_spot_price qs env.quoteTime env.quoteFetch
        match q.price with
        | none => ⟨.apiError a.name (lastClose futures), [], q.state, q.emits⟩
        | some gold_spot =>
          let f_now := lastClose futures
          let gap := f_now - gold_spot
          let spot : PriceSeries := futures.map fun p => (p.1, gold_spot)
          ⟨.valid a.name f_now gold_spot gap,
           [⟨a.name ++ " (Futures vs Real Spot)", futures, spot⟩], q.state, q.emits⟩
    else
      match env.spotFetch with
      | .error e => ⟨.errored a.name, [], qs, [.warning (assetErrorMsg a.name e)]⟩
      | .ok spot_raw =>
        if futures.isEmpty || spot_raw.isEmpty then ⟨.unavailable a.name, [], qs, []⟩
        else
          let spot : PriceSeries := spot_raw.map fun p => (p.1, p.2 * a.multiplier)
          let f_now := lastClose futures
          let s_now := lastClose spot
          ⟨.valid a.name f_now s_now (f_now - s_now),
           [⟨a.name ++ " (Futures vs Spot)", futures, spot⟩], qs, []⟩

/-- Result of a full refresh cycle: the `rows` and `charts` lists in
append order, the final session state, and all messages emitted. -/
structure CycleResult where
  rows : List Row
  charts : List ChartSeries
  state : QuoteState
  emits : List Emit
  deriving Repr

/-- Embedding of the full `for` loop over the registry (app.py lines
73-133): each asset is processed in order and the quote-cache state is
threaded through. -/
def runCycle (jobs : List (AssetSpec × AssetEnv)) (qs : QuoteState) : CycleResult :=
  match jobs with
  | [] => ⟨[], [], qs, []⟩
  | (a, env) :: rest =>
    let r := processAsset a env qs
    let tail := runCycle rest r.state
    ⟨r.row :: tail.rows, r.charts ++ tail.charts, tail.state, r.emits ++ tail.emits⟩

/-- Holds (as `true`) exactly when the fetch outcome does not reach the
success branch of `get_gold_spot_price` (the branch that parses a
`price` field with no 403 code and no `message` field). -/
def fetchFailed : FetchResult → Bool
  | .transportError _ => true
  | .response data =>
      decide (data.code = some 403) || data.message.isSome ||
        (match data.price with
         | some (some _) => false
         | _ => true)

/-- The price extracted by the success branch, when it would be reached. -/
def fetchSuccessPrice : FetchResult → Option ℚ
  | .transportError _ => none
  | .response data =>
      if data.code = some 403 then none
      else
        match data.message with
        | some _ => none
        | none =>
            match data.price with
            | some (some q) => some q
            | _ => none

/-- Branch equation: cache hit (app.py lines 23-25). -/
theorem quote_eq_hit (qs : QuoteState) (t : ℚ) (f : FetchResult)
    (h : quoteFresh qs t = true) :
    get_gold_spot_price qs t f = ⟨qs.gold_spot_cache, qs, [], false⟩ := by
  simp [get_gold_spot_price, h]

/-- Branch equation: transport-level exception (app.py lines 49-51). -/
theorem quote_eq_transport (qs : QuoteState) (t : ℚ) (e : String)
    (hstale : quoteFresh qs t = false) :
    get_gold_spot_price qs t (.transportError e) =
      ⟨qs.gold_spot_cache, qs, [.error ("Gold API Error: " ++ e)], true⟩ := by
  simp [get_gold_spot_price, hstale]

/-- Branch equation: 403 authorization failure (app.py lines 34-36). -/
theorem quote_eq_403 (qs : QuoteState) (t : ℚ) (data : ProviderResponse)
    (hstale : quoteFresh qs t = false) (hcode : data.code = some 403) :
    get_gold_spot_price qs t (.response data) =
      ⟨qs.gold_spot_cache, qs, [.error apiKeyErrorMsg], true⟩ := by
  simp [get_gold_spot_price, hstale, hcode]

/-- Branch equation: rate-limit message, silent fallback (app.py lines 37-41). -/
theorem quote_eq_ratelimit (qs : QuoteState) (t : ℚ) (data : ProviderResponse)
    (m : String) (hstale : quoteFresh qs t = false)
    (hcode : ¬ data.code = some 403) (hm : data.message = some m)
    (hrl : containsSubstr "run out of API credits" m = true) :
    get_gold_spot_price qs t (.response data) =
      ⟨qs.gold_spot_cache, qs, [], true⟩ := by
  simp [get_gold_spot_price, hstale, hcode, hm, hrl]

/-- Branch equation: other provider message, warned fallback (app.py lines 37-41). -/
theorem quote_eq_message (qs : QuoteState) (t : ℚ) (data : ProviderResponse)
    (m : String) (hstale : quoteFresh qs t = false)
    (hcode : ¬ data.code = some 403) (hm : data.message = some m)
    (hrl : containsSubstr "run out of API credits" m = false) :
    get_gold_spot_price qs t (.response data) =
      ⟨qs.gold_spot_cache, qs, [.warning ("API Message: " ++ m)], true⟩ := by
  simp [get_gold_spot_price, hstale, hcode, hm, hrl]

/-- Branch equation: successful price parse, cache write (app.py lines 42-47). -/
theorem quote_eq_price (qs : QuoteState) (t : ℚ) (data : ProviderResponse)
    (q : ℚ) (hstale : quoteFresh qs t = false)
    (hcode : ¬ data.code = some 403) (hm : data.message = none)
    (hp : data.price = some (some q)) :
    get_gold_spot_price qs t (.response data) =
      ⟨some q, ⟨some q, t⟩, [], true⟩ := by
  simp [get_gold_spot_price, hstale, hcode, hm, hp]

/-- Branch equation: `price` present but `float(...)` raises, caught by the
surrounding handler (app.py lines 43, 49-51). -/
theorem quote_eq_badprice (qs : QuoteState) (t : ℚ) (data : ProviderResponse)
    (hstale : quoteFresh qs t = false)
    (hcode : ¬ data.code = some 403) (hm : data.message = none)
    (hp : data.price = some none) :
    get_gold_spot_price qs t (.response data) =
      ⟨qs.gold_spot_cache, qs,
       [.error "Gold API Error: could not convert string to float"], true⟩ := by
  simp [get_gold_spot_price, hstale, hcode, hm, hp]

/-- Branch equation: unrecognized shape, silent fall-through (app.py line 48). -/
theorem quote_eq_noshape (qs : QuoteState) (t : ℚ) (data : ProviderResponse)
    (hstale : quoteFresh qs t = false)
    (hcode : ¬ data.code = some 403) (hm : data.message = none)
    (hp : data.price = none) :
    get_gold_spot_price qs t (.response data) =
      ⟨qs.gold_spot_cache, qs, [], true⟩ := by
  simp [get_gold_spot_price, hstale, hcode, hm, hp]

/-- Complete case split on a stale-cache call: either the success branch
runs (returning the parsed price and writing the cache) or the call
falls back, returning the old cached value with the state unchanged. -/
theorem quote_cases (qs : QuoteState) (t : ℚ) (f : FetchResult)
    (hstale : quoteFresh qs t = false) :
    (∃ q, fetchSuccessPrice f = some q ∧ fetchFailed f = false ∧
        get_gold_spot_price qs t f = ⟨some q, ⟨some q, t⟩, [], true⟩) ∨
    (fetchSuccessPrice f = none ∧ fetchFailed f = true ∧ ∃ es,
        get_gold_spot_price qs t f = ⟨qs.gold_spot_cache, qs, es, true⟩) := by
  cases f with
  | transportError e =>
    right
    exact ⟨rfl, rfl, _, quote_eq_transport qs t e hstale⟩
  | response data =>
    by_cases hcode : data.code = some 403
    · right
      refine ⟨?_, ?_, _, quote_eq_403 qs t data hstale hcode⟩
      · simp [fetchSuccessPrice, hcode]
      · simp [fetchFailed, hcode]
    · cases hm : data.message with
      | some m =>
        right
        by_cases hrl : containsSubstr "run out of API credits" m
        · refine ⟨?_, ?_, _, quote_eq_ratelimit qs t data m hstale hcode hm hrl⟩
          · simp [fetchSuccessPrice, hcode, hm]
          · simp [fetchFailed, hcode, hm]
        · refine ⟨?_, ?_, _,
            quote_eq_message qs t data m hstale hcode hm (by simpa using hrl)⟩
          · simp [fetchSuccessPrice, hcode, hm]
          · simp [fetchFailed, hcode, hm]
      | none =>
        cases hp : data.price with
        | none =>
          right
          refine ⟨?_, ?_, _, quote_eq_noshape qs t data hstale hcode hm hp⟩
          · simp [fetchSuccessPrice, hcode, hm, hp]
          · simp [fetchFailed, hcode, hm, hp]
        | some op =>
          cases op with
          | none =>
            right
            refine ⟨?_, ?_, _, quote_eq_badprice qs t data hstale hcode hm hp⟩
            · simp [fetchSuccessPrice, hcode, hm, hp]
            · simp [fetchFailed, hcode, hm, hp]
          | some q =>
            left
            refine ⟨q, ?_, ?_, quote_eq_price qs t data q hstale hcode hm hp⟩
            · simp [fetchSuccessPrice, hcode, hm, hp]
            · simp [fetchFailed, hcode, hm, hp]

/-- Every branch taken when the cache is stale issues a network request. -/
theorem quote_stale_fetched (qs : QuoteState) (t : ℚ) (f : FetchResult)
    (hstale : quoteFresh qs t = false) :
    (get_gold_spot_price qs t f).fetched = true := by
  rcases quote_cases qs t f hstale with ⟨q, _, _, h⟩ | ⟨_, _, es, h⟩ <;> rw [h]

/-- Multiplying a series pointwise multiplies its last close. -/
theorem lastClose_map_mul (l : PriceSeries) (m : ℚ) :
    lastClose (l.map fun p => (p.1, p.2 * m)) = lastClose l * m := by
  induction l with
  | nil => simp [lastClose]
  | cons x xs ih =>
    cases xs with
    | nil => simp [lastClose]
    | cons y ys =>
      simpa [lastClose, List.map] using ih

/-- Every row produced by the loop carries the asset's display name. -/
theorem processAsset_label (a : AssetSpec) (env : AssetEnv) (qs : QuoteState) :
    ((processAsset a env qs).row).label = a.name := by
  obtain ⟨ff, sf, qt, qf⟩ := env
  cases ff with
  | error e => simp [processAsset, Row.label]
  | ok futures =>
    by_cases hsym : a.spotSymbol = "API"
    · cases hemp : futures.isEmpty with
      | false =>
        cases hq : (get_gold_spot_price qs qt qf).price with
        | none => simp [processAsset, hsym, hemp, hq, Row.label]
        | some gold => simp [processAsset, hsym, hemp, hq, Row.label]
      | true => simp [processAsset, hsym, hemp, Row.label]
    · cases sf with
      | error e => simp [processAsset, hsym, Row.label]
      | ok spot_raw =>
        cases hemp : (futures.isEmpty || spot_raw.isEmpty) with
        | false => simp [processAsset, hsym, hemp, Row.label]
        | true => simp [processAsset, hsym, hemp, Row.label]

/-- Any exception while processing an asset — the futures fetch raising,
or the spot fetch raising for a historical-spot asset — is caught and
yields the all-ERROR row. -/
theorem processAsset_raises (a : AssetSpec) (env : AssetEnv) (qs : QuoteState)
    (h : (∃ msg, env.futuresFetch = .error msg) ∨
      (¬ a.spotSymbol = "API" ∧ ∃ msg, env.spotFetch = .error msg)) :
    (processAsset a env qs).row = .errored a.name := by
  obtain ⟨ff, sf, qt, qf⟩ := env
  rcases h with ⟨msg, hf⟩ | ⟨hsym, msg, hs⟩
  · simp only at hf
    subst hf
    simp [processAsset]
  · simp only at hs
    subst hs
    cases ff with
    | error e => simp [processAsset]
    | ok futures => simp [processAsset, hsym]

/-- The cycle produces one row per registry entry. -/
theorem runCycle_length (jobs : List (AssetSpec × AssetEnv)) (qs : QuoteState) :
    (runCycle jobs qs).rows.length = jobs.length := by
  induction jobs generalizing qs with
  | nil => rfl
  | cons j rest ih =>
    obtain ⟨a, env⟩ := j
    simp [runCycle, ih]

/-- The i-th row of a cycle is the row `processAsset` produces for the
i-th job, under the quote state threaded up to that point. -/
theorem runCycle_get (jobs : List (AssetSpec × AssetEnv)) (qs : QuoteState)
    (i : Nat) (a : AssetSpec) (env : AssetEnv) (h : jobs[i]? = some (a, env)) :
    ∃ qs₀, (runCycle jobs qs).rows[i]? = some (processAsset a env qs₀).row := by
  induction jobs generalizing qs i with
  | nil => simp at h
  | cons j rest ih =>
    obtain ⟨a₀, env₀⟩ := j
    cases i with
    | zero =>
      simp at h
      obtain ⟨rfl, rfl⟩ := h
      exact ⟨qs, by simp [runCycle]⟩
    | succ i =>
      simp only [List.getElem?_cons_succ] at h
      obtain ⟨qs₀, hq⟩ := ih (processAsset a₀ env₀ qs).state i h
      exact ⟨qs₀, by simpa [runCycle] using hq⟩

/-- Claim C3: for every pair of getQuote calls such that the second occurs
while a cached value exists and its age is strictly below the 10-second
TTL, the second call issues no network request and returns a price
identical to the cached one (and leaves the cache untouched). -/
theorem C3_cache_hit_no_fetch (qs : QuoteState) (t : ℚ) (f : FetchResult) (p : ℚ)
    (hc : qs.gold_spot_cache = some p)
    (ht : t - qs.gold_spot_timestamp < 10) :
    get_gold_spot_price qs t f = ⟨some p, qs, [], false⟩ := by
  have hfresh : quoteFresh qs t = true := by simp [quoteFresh, hc, ht]
  rw [quote_eq_hit qs t f hfresh, hc]

theorem C3_cache_hit_no_fetch_witness :
    get_gold_spot_price ⟨some 1995, 95⟩ 100 (.transportError "timeout") =
      ⟨some 1995, ⟨some 1995, 95⟩, [], false⟩ :=
  C3_cache_hit_no_fetch ⟨some 1995, 95⟩ 100 (.transportError "timeout") 1995
    rfl (by norm_num)

/-- Claim C4: a getQuote call after the TTL has elapsed attempts a new
network fetch, and if that fetch fails (transport error or provider
failure) the call returns the previously cached value unchanged, with
the cache state untouched; the function is total, so no failure
propagates as an exception. -/
theorem C4_stale_refetch_fallback (qs : QuoteState) (t : ℚ) (f : FetchResult)
    (hstale : quoteFresh qs t = false) :
    (get_gold_spot_price qs t f).fetched = true ∧
    (fetchFailed f = true →
      (get_gold_spot_price qs t f).price = qs.gold_spot_cache ∧
      (get_gold_spot_price qs t f).state = qs) := by
  refine ⟨quote_stale_fetched qs t f hstale, fun hfail => ?_⟩
  rcases quote_cases qs t f hstale with ⟨q, _, hff, _⟩ | ⟨_, _, es, h⟩
  · rw [hff] at hfail
    exact absurd hfail (by simp)
  · rw [h]
    exact ⟨rfl, rfl⟩

theorem C4_stale_refetch_fallback_witness :
    (get_gold_spot_price ⟨some 1990, 0⟩ 100 (.transportError "timeout")).fetched = true ∧
    (get_gold_spot_price ⟨some 1990, 0⟩ 100 (.transportError "timeout")).price = some 1990 := by
  have h := C4_stale_refetch_fallback ⟨some 1990, 0⟩ 100 (.transportError "timeout")
    (by norm_num [quoteFresh])
  exact ⟨h.1, (h.2 rfl).1⟩

/-- Claim C6: on a stale-cache call, a 403 response emits an `st.error`
warning and returns the previous cached value; a rate-limit message
emits nothing and returns the cached value; any other message emits an
`st.warning` and returns the cached value.  In all three cases the cache
state is unchanged and nothing is raised. -/
theorem C6_provider_branches (qs : QuoteState) (t : ℚ) (data : ProviderResponse)
    (hstale : quoteFresh qs t = false) :
    (data.code = some 403 →
      get_gold_spot_price qs t (.response data) =
        ⟨qs.gold_spot_cache, qs, [.error apiKeyErrorMsg], true⟩) ∧
    (∀ m, ¬ data.code = some 403 → data.message = some m →
      (containsSubstr "run out of API credits" m = true →
        get_gold_spot_price qs t (.response data) =
          ⟨qs.gold_spot_cache, qs, [], true⟩) ∧
      (containsSubstr "run out of API credits" m = false →
        get_gold_spot_price qs t (.response data) =
          ⟨qs.gold_spot_cache, qs, [.warning ("API Message: " ++ m)], true⟩)) := by
  refine ⟨fun hcode => quote_eq_403 qs t data hstale hcode, fun m hcode hm => ⟨?_, ?_⟩⟩
  · exact fun hrl => quote_eq_ratelimit qs t data m hstale hcode hm hrl
  · exact fun hrl => quote_eq_message qs t data m hstale hcode hm hrl

theorem C6_provider_branches_witness :
    get_gold_spot_price ⟨some 1990, 0⟩ 100 (.response ⟨some 403, none, none⟩) =
      ⟨some 1990, ⟨some 1990, 0⟩, [.error apiKeyErrorMsg], true⟩ :=
  (C6_provider_branches ⟨some 1990, 0⟩ 100 ⟨some 403, none, none⟩
    (by norm_num [quoteFresh])).1 rfl

/-- Claim C9: only the successful-price-parse branch writes the cache
value and timestamp; a cache hit and every failure or fallback outcome
leave both fields unchanged, so after a failed refresh every later call
past the last success TTL issues a network fetch again (failures are
never negatively cached). -/
theorem C9_cache_write_invariant (qs : QuoteState) (t : ℚ) (f : FetchResult) :
    (quoteFresh qs t = true → (get_gold_spot_price qs t f).state = qs) ∧
    (quoteFresh qs t = false →
      (∀ q, fetchSuccessPrice f = some q →
        (get_gold_spot_price qs t f).state = ⟨some q, t⟩ ∧
        (get_gold_spot_price qs t f).price = some q) ∧
      (fetchSuccessPrice f = none →
        (get_gold_spot_price qs t f).state = qs ∧
        ∀ t₂ f₂, quoteFresh qs t₂ = false →
          (get_gold_spot_price (get_gold_spot_price qs t f).state t₂ f₂).fetched = true)) := by
  refine ⟨fun hfresh => by rw [quote_eq_hit qs t f hfresh], fun hstale => ⟨?_, ?_⟩⟩
  · intro q hq
    rcases quote_cases qs t f hstale with ⟨q₂, hq₂, _, h⟩ | ⟨hnone, _, es, h⟩
    · rw [hq] at hq₂
      obtain rfl : q = q₂ := by injection hq₂
      rw [h]
      exact ⟨rfl, rfl⟩
    · rw [hq] at hnone
      exact absurd hnone (by simp)
  · intro hnone
    rcases quote_cases qs t f hstale with ⟨q₂, hq₂, _, h⟩ | ⟨_, _, es, h⟩
    · rw [hnone] at hq₂
      exact absurd hq₂ (by simp)
    · rw [h]
      exact ⟨rfl, fun t₂ f₂ hstale₂ => quote_stale_fetched qs t₂ f₂ hstale₂⟩

theorem C9_cache_write_invariant_witness :
    (get_gold_spot_price initQuoteState 100
        (.response ⟨none, none, some (some 1990)⟩)).state = ⟨some 1990, 100⟩ :=
  (((C9_cache_write_invariant initQuoteState 100
      (.response ⟨none, none, some (some 1990)⟩)).2
      (by norm_num [quoteFresh, initQuoteState])).1 1990 rfl).1

/-- Claim C10: a response carrying both a `message` and a `price` (with
no 403 code) takes the message branch: the cached value is returned and
the new price is discarded without a cache write; the price is honored
only when neither a 403 code nor a `message` field is present (a 403
with a price also falls back to the cache). -/
theorem C10_message_beats_price (qs : QuoteState) (t : ℚ) (data : ProviderResponse)
    (m : String) (q : ℚ) (hstale : quoteFresh qs t = false)
    (hp : data.price = some (some q)) :
    (¬ data.code = some 403 → data.message = some m →
      (get_gold_spot_price qs t (.response data)).price = qs.gold_spot_cache ∧
      (get_gold_spot_price qs t (.response data)).state = qs) ∧
    (data.code = some 403 →
      (get_gold_spot_price qs t (.response data)).price = qs.gold_spot_cache ∧
      (get_gold_spot_price qs t (.response data)).state = qs) ∧
    (¬ data.code = some 403 → data.message = none →
      get_gold_spot_price qs t (.response data) = ⟨some q, ⟨some q, t⟩, [], true⟩) := by
  refine ⟨fun hcode hm => ?_, fun hcode => ?_,
    fun hcode hm => quote_eq_price qs t data q hstale hcode hm hp⟩
  · by_cases hrl : containsSubstr "run out of API credits" m = true
    · rw [quote_eq_ratelimit qs t data m hstale hcode hm hrl]
      exact ⟨rfl, rfl⟩
    · rw [quote_eq_message qs t data m hstale hcode hm (by simpa using hrl)]
      exact ⟨rfl, rfl⟩
  · rw [quote_eq_403 qs t data hstale hcode]
    exact ⟨rfl, rfl⟩

theorem C10_message_beats_price_witness :
    (get_gold_spot_price ⟨some 1990, 0⟩ 100
      (.response ⟨none, some "service maintenance", some (some 42)⟩)).price = some 1990 :=
  (((C10_message_beats_price ⟨some 1990, 0⟩ 100
      ⟨none, some "service maintenance", some (some 42)⟩ "service maintenance" 42
      (by norm_num [quoteFresh]) rfl).1) (by simp) rfl).1

/-- Claim C8 counterexample: with a stale cache holding 1990, the
unrecognized-shape response (no `code`, no `message`, no `price`) emits
no warning at all, and the Gold row for that cycle is a Valid row, not
an ERROR row — contradicting the claim that such a response is treated
as a TransportError with a visible warning and an ERROR row. -/
theorem C8_counterexample :
    (get_gold_spot_price ⟨some 1990, 0⟩ 100 (.response ⟨none, none, none⟩)).emits = [] ∧
    (processAsset ⟨"Gold", "GC=F", "API", 1⟩
        ⟨.ok [(0, 2000)], .ok [], 100, .response ⟨none, none, none⟩⟩
        ⟨some 1990, 0⟩).row = .valid "Gold" 2000 1990 10 := by
  have hq := quote_eq_noshape ⟨some 1990, 0⟩ 100 ⟨none, none, none⟩
    (by norm_num [quoteFresh]) (by simp) rfl rfl
  constructor
  · rw [hq]
  · norm_num [processAsset, hq, lastClose]

/-- Claim C8 amended: a provider response of unrecognized shape (no 403
code, no `message`, no `price` field) makes getQuote silently return the
previous cached value with no warning and no cache write; it is not
treated as a transport error, and the affected live-quote asset row
never becomes the ERROR row. -/
theorem C8_noshape_silent (qs : QuoteState) (t : ℚ) (data : ProviderResponse)
    (a : AssetSpec) (env : AssetEnv) (futures : PriceSeries)
    (hstale : quoteFresh qs t = false)
    (hcode : ¬ data.code = some 403) (hm : data.message = none) (hp : data.price = none)
    (hsym : a.spotSymbol = "API")
    (hff : env.futuresFetch = .ok futures) (hfe : futures ≠ [])
    (hqt : env.quoteTime = t) (hqf : env.quoteFetch = .response data) :
    get_gold_spot_price qs t (.response data) = ⟨qs.gold_spot_cache, qs, [], true⟩ ∧
    ∀ n, (processAsset a env qs).row ≠ Row.errored n := by
  have hq := quote_eq_noshape qs t data hstale hcode hm hp
  refine ⟨hq, fun n => ?_⟩
  cases futures with
  | nil => exact absurd rfl hfe
  | cons x xs =>
    obtain ⟨ff, sf, qt, qf⟩ := env
    simp only at hff hqt hqf
    subst hff hqt hqf
    cases hc : qs.gold_spot_cache with
    | none => simp [processAsset, hsym, hq, hc]
    | some p => simp [processAsset, hsym, hq, hc]

theorem C8_noshape_silent_witness :
    get_gold_spot_price ⟨some 1990, 0⟩ 100 (.response ⟨none, none, none⟩) =
      ⟨some 1990, ⟨some 1990, 0⟩, [], true⟩ ∧
    ∀ n, (processAsset ⟨"Gold", "GC=F", "API", 1⟩
        ⟨.ok [(0, 2000)], .ok [], 100, .response ⟨none, none, none⟩⟩
        ⟨some 1990, 0⟩).row ≠ Row.errored n := by
  have h := C8_noshape_silent ⟨some 1990, 0⟩ 100 ⟨none, none, none⟩
    ⟨"Gold", "GC=F", "API", 1⟩
    ⟨.ok [(0, 2000)], .ok [], 100, .response ⟨none, none, none⟩⟩
    [(0, 2000)] (by norm_num [quoteFresh]) (by simp) rfl rfl rfl rfl (by simp) rfl rfl
  exact ⟨h.1, h.2⟩

/-- Claim C1: whenever an asset produces a Valid row, its spot value is
the last value of the multiplied spot series (or the live quote price
for a live-quote asset), its futures value is the last value of the
futures series, and the gap is exactly futuresNow minus spotNow. -/
theorem C1_valid_gap (a : AssetSpec) (env : AssetEnv) (qs : QuoteState)
    (n : String) (f s g : ℚ)
    (h : (processAsset a env qs).row = .valid n f s g) :
    g = f - s ∧
    ∃ futures, env.futuresFetch = .ok futures ∧ f = lastClose futures ∧
      ((a.spotSymbol = "API" ∧
          (get_gold_spot_price qs env.quoteTime env.quoteFetch).price = some s) ∨
       (¬ a.spotSymbol = "API" ∧
          ∃ spot_raw, env.spotFetch = .ok spot_raw ∧
            s = lastClose spot_raw * a.multiplier)) := by
  obtain ⟨ff, sf, qt, qf⟩ := env
  cases ff with
  | error e => simp [processAsset] at h
  | ok futures =>
    by_cases hsym : a.spotSymbol = "API"
    · cases hemp : futures.isEmpty with
      | true => simp [processAsset, hsym, hemp] at h
      | false =>
        cases hq : (get_gold_spot_price qs qt qf).price with
        | none => simp [processAsset, hsym, hemp, hq] at h
        | some gold =>
          simp [processAsset, hsym, hemp, hq] at h
          obtain ⟨hn, hf, hs, hg⟩ := h
          subst hn hf hs hg
          exact ⟨rfl, futures, rfl, rfl, .inl ⟨hsym, rfl⟩⟩
    · cases sf with
      | error e => simp [processAsset, hsym] at h
      | ok spot_raw =>
        cases hemp : (futures.isEmpty || spot_raw.isEmpty) with
        | true => simp [processAsset, hsym, hemp] at h
        | false =>
          simp [processAsset, hsym, hemp] at h
          obtain ⟨hn, hf, hs, hg⟩ := h
          subst hn hf hs hg
          exact ⟨rfl, futures, rfl, rfl,
            .inr ⟨hsym, spot_raw, rfl, lastClose_map_mul spot_raw a.multiplier⟩⟩

theorem C1_valid_gap_witness :
    (processAsset ⟨"Silver", "SI=F", "SLV", 1⟩
        ⟨.ok [(0, 100)], .ok [(0, 90)], 0, .transportError "x"⟩ initQuoteState).row =
      .valid "Silver" 100 90 10 ∧ (10 : ℚ) = 100 - 90 := by
  have hrow : (processAsset ⟨"Silver", "SI=F", "SLV", 1⟩
      ⟨.ok [(0, 100)], .ok [(0, 90)], 0, .transportError "x"⟩ initQuoteState).row =
      .valid "Silver" 100 90 10 := by
    simp [processAsset, lastClose]
    norm_num
  exact ⟨hrow, (C1_valid_gap ⟨"Silver", "SI=F", "SLV", 1⟩
    ⟨.ok [(0, 100)], .ok [(0, 90)], 0, .transportError "x"⟩ initQuoteState
    "Silver" 100 90 10 hrow).1⟩

/-- Claim C2: an asset whose futures series is empty (live-quote branch)
or whose futures or spot series is empty (historical branch), with no
exception thrown by either fetch, gets the all-N/A Unavailable row —
never a Valid and never an Errored row. -/
theorem C2_empty_unavailable (a : AssetSpec) (env : AssetEnv) (qs : QuoteState)
    (futures : PriceSeries) (hf : env.futuresFetch = .ok futures)
    (hcase : (a.spotSymbol = "API" ∧ futures = []) ∨
      (¬ a.spotSymbol = "API" ∧ ∃ spot_raw, env.spotFetch = .ok spot_raw ∧
        (futures = [] ∨ spot_raw = []))) :
    (processAsset a env qs).row = .unavailable a.name := by
  obtain ⟨ff, sf, qt, qf⟩ := env
  simp only at hf
  subst hf
  rcases hcase with ⟨hsym, rfl⟩ | ⟨hsym, spot_raw, hs, hemp⟩
  · simp [processAsset, hsym]
  · simp only at hs
    subst hs
    rcases hemp with rfl | rfl
    · simp [processAsset, hsym]
    · simp [processAsset, hsym]

theorem C2_empty_unavailable_witness :
    (processAsset ⟨"Silver", "SI=F", "SLV", 1⟩
        ⟨.ok [], .ok [(0, 90)], 0, .transportError "x"⟩ initQuoteState).row =
      .unavailable "Silver" :=
  C2_empty_unavailable ⟨"Silver", "SI=F", "SLV", 1⟩
    ⟨.ok [], .ok [(0, 90)], 0, .transportError "x"⟩ initQuoteState [] rfl
    (.inr ⟨by decide, [(0, 90)], rfl, .inl rfl⟩)

/-- Claim C7 counterexample: a live-quote asset that reaches the
partial-success row (futures shown, spot cell `API Error`) appends no
chart at all — the loop `continue`s at app.py line 87 before the chart
code — contradicting the claim that every asset reaching Valid or
partial-success produces a ChartSeries. -/
theorem C7_counterexample :
    (processAsset ⟨"Gold", "GC=F", "API", 1⟩
        ⟨.ok [(0, 2000)], .ok [], 100, .transportError "timeout"⟩
        initQuoteState).row = .apiError "Gold" 2000 ∧
    (processAsset ⟨"Gold", "GC=F", "API", 1⟩
        ⟨.ok [(0, 2000)], .ok [], 100, .transportError "timeout"⟩
        initQuoteState).charts = [] := by
  have hq : get_gold_spot_price initQuoteState 100 (.transportError "timeout") =
      ⟨none, initQuoteState, [.error ("Gold API Error: " ++ "timeout")], true⟩ := by
    rw [quote_eq_transport initQuoteState 100 "timeout"
      (by norm_num [quoteFresh, initQuoteState])]
    rfl
  constructor
  · simp [processAsset, hq, lastClose]
  · simp [processAsset, hq]

/-- Claim C7 amended: every asset that reaches a Valid row produces
exactly one ChartSeries, whose futures side is the fetched futures
series; for a live-quote asset its spot side is the flat series mapping
every timestamp of the futures series to the single live price.  (An
asset that only reaches the partial-success row produces no chart.) -/
theorem C7_valid_chart (a : AssetSpec) (env : AssetEnv) (qs : QuoteState)
    (n : String) (f s g : ℚ)
    (h : (processAsset a env qs).row = .valid n f s g) :
    ∃ c, (processAsset a env qs).charts = [c] ∧
      ∃ futures, env.futuresFetch = .ok futures ∧ c.futures = futures ∧
        (a.spotSymbol = "API" → c.spot = futures.map fun p => (p.1, s)) := by
  obtain ⟨ff, sf, qt, qf⟩ := env
  cases ff with
  | error e => simp [processAsset] at h
  | ok futures =>
    by_cases hsym : a.spotSymbol = "API"
    · cases hemp : futures.isEmpty with
      | true => simp [processAsset, hsym, hemp] at h
      | false =>
        cases hq : (get_gold_spot_price qs qt qf).price with
        | none => simp [processAsset, hsym, hemp, hq] at h
        | some gold =>
          simp [processAsset, hsym, hemp, hq] at h
          obtain ⟨-, -, hs, -⟩ := h
          subst hs
          refine ⟨⟨a.name ++ " (Futures vs Real Spot)", futures,
            futures.map fun p => (p.1, gold)⟩, ?_, futures, rfl, rfl, fun _ => rfl⟩
          simp [processAsset, hsym, hemp, hq]
    · cases sf with
      | error e => simp [processAsset, hsym] at h
      | ok spot_raw =>
        cases hemp : (futures.isEmpty || spot_raw.isEmpty) with
        | true => simp [processAsset, hsym, hemp] at h
        | false =>
          refine ⟨⟨a.name ++ " (Futures vs Spot)", futures,
            spot_raw.map fun p => (p.1, p.2 * a.multiplier)⟩, ?_, futures, rfl, rfl,
            fun hsym2 => absurd hsym2 hsym⟩
          simp [processAsset, hsym, hemp]

theorem C7_valid_chart_witness :
    ∃ c, (processAsset ⟨"Gold", "GC=F", "API", 1⟩
        ⟨.ok [(0, 2000)], .ok [], 100, .transportError "x"⟩ ⟨some 1995, 95⟩).charts = [c] ∧
      ∃ futures,
        (⟨.ok [(0, 2000)], .ok [], 100, .transportError "x"⟩ : AssetEnv).futuresFetch =
          .ok futures ∧ c.futures = futures ∧
        ((⟨"Gold", "GC=F", "API", 1⟩ : AssetSpec).spotSymbol = "API" →
          c.spot = futures.map fun p => (p.1, (1995 : ℚ))) := by
  have hq := quote_eq_hit ⟨some 1995, 95⟩ 100 (.transportError "x")
    (by norm_num [quoteFresh])
  exact C7_valid_chart ⟨"Gold", "GC=F", "API", 1⟩
    ⟨.ok [(0, 2000)], .ok [], 100, .transportError "x"⟩ ⟨some 1995, 95⟩
    "Gold" 2000 1995 5 (by norm_num [processAsset, hq, lastClose])

/-- Claim C5: the cycle produces exactly one row per job, in registry
order, each carrying its asset's name; a job on which an exception is
raised — the futures fetch raising, or the spot fetch raising for a
historical-spot asset — gets the Errored row while every other job
still gets its own row — one asset's failure never aborts the cycle. -/
theorem C5_cycle_isolation (jobs : List (AssetSpec × AssetEnv)) (qs : QuoteState) :
    (runCycle jobs qs).rows.length = jobs.length ∧
    ∀ (i : Nat) (a : AssetSpec) (env : AssetEnv), jobs[i]? = some (a, env) →
      (∃ r, (runCycle jobs qs).rows[i]? = some r ∧ r.label = a.name) ∧
      ((∃ msg, env.futuresFetch = .error msg) ∨
        (¬ a.spotSymbol = "API" ∧ ∃ msg, env.spotFetch = .error msg) →
        (runCycle jobs qs).rows[i]? = some (.errored a.name)) := by
  refine ⟨runCycle_length jobs qs, fun i a env h => ?_⟩
  obtain ⟨qs₀, hrow⟩ := runCycle_get jobs qs i a env h
  refine ⟨⟨(processAsset a env qs₀).row, hrow, processAsset_label a env qs₀⟩, ?_⟩
  intro hraise
  rw [hrow, processAsset_raises a env qs₀ hraise]

theorem C5_cycle_isolation_witness :
    (runCycle
        [(⟨"Gold", "GC=F", "API", 1⟩, ⟨.error "boom", .ok [], 0, .transportError "x"⟩),
         (⟨"Oil (WTI)", "CL=F", "USO", 1⟩, ⟨.ok [(0, 80)], .error "down", 0, .transportError "x"⟩),
         (⟨"Silver", "SI=F", "SLV", 1⟩, ⟨.ok [(0, 100)], .ok [(0, 90)], 0, .transportError "x"⟩)]
        initQuoteState).rows.length = 3 ∧
    (runCycle
        [(⟨"Gold", "GC=F", "API", 1⟩, ⟨.error "boom", .ok [], 0, .transportError "x"⟩),
         (⟨"Oil (WTI)", "CL=F", "USO", 1⟩, ⟨.ok [(0, 80)], .error "down", 0, .transportError "x"⟩),
         (⟨"Silver", "SI=F", "SLV", 1⟩, ⟨.ok [(0, 100)], .ok [(0, 90)], 0, .transportError "x"⟩)]
        initQuoteState).rows[0]? = some (.errored "Gold") ∧
    (runCycle
        [(⟨"Gold", "GC=F", "API", 1⟩, ⟨.error "boom", .ok [], 0, .transportError "x"⟩),
         (⟨"Oil (WTI)", "CL=F", "USO", 1⟩, ⟨.ok [(0, 80)], .error "down", 0, .transportError "x"⟩),
         (⟨"Silver", "SI=F", "SLV", 1⟩, ⟨.ok [(0, 100)], .ok [(0, 90)], 0, .transportError "x"⟩)]
        initQuoteState).rows[1]? = some (.errored "Oil (WTI)") ∧
    (∃ r, (runCycle
        [(⟨"Gold", "GC=F", "API", 1⟩, ⟨.error "boom", .ok [], 0, .transportError "x"⟩),
         (⟨"Oil (WTI)", "CL=F", "USO", 1⟩, ⟨.ok [(0, 80)], .error "down", 0, .transportError "x"⟩),
         (⟨"Silver", "SI=F", "SLV", 1⟩, ⟨.ok [(0, 100)], .ok [(0, 90)], 0, .transportError "x"⟩)]
        initQuoteState).rows[2]? = some r ∧ r.label = "Silver") := by
  have h := C5_cycle_isolation
    [(⟨"Gold", "GC=F", "API", 1⟩, ⟨.error "boom", .ok [], 0, .transportError "x"⟩),
     (⟨"Oil (WTI)", "CL=F", "USO", 1⟩, ⟨.ok [(0, 80)], .error "down", 0, .transportError "x"⟩),
     (⟨"Silver", "SI=F", "SLV", 1⟩, ⟨.ok [(0, 100)], .ok [(0, 90)], 0, .transportError "x"⟩)]
    initQuoteState
  refine ⟨h.1,
    (h.2 0 ⟨"Gold", "GC=F", "API", 1⟩
      ⟨.error "boom", .ok [], 0, .transportError "x"⟩ rfl).2 (.inl ⟨"boom", rfl⟩),
    (h.2 1 ⟨"Oil (WTI)", "CL=F", "USO", 1⟩
      ⟨.ok [(0, 80)], .error "down", 0, .transportError "x"⟩ rfl).2
        (.inr ⟨by decide, "down", rfl⟩),
    (h.2 2 ⟨"Silver", "SI=F", "SLV", 1⟩
      ⟨.ok [(0, 100)], .ok [(0, 90)], 0, .transportError "x"⟩ rfl).1⟩

end FuturesDashboard
